import Mathlib

/-!
Shallow embedding of `HttpSensor`
(src/providers/http/src/airflow/providers/http/sensors/http.py).

The sensor's only effects are: one call to the external HTTP capability
(`HttpHook.run`), an optional call to the user-supplied `response_check`
callable, and (in deferrable mode) one call to the deferral registration
(`self.defer`).  We embed the sensor as pure functions over explicit
parameters for those external behaviours:

* the outcome of `hook.run` is a value of `Except Exc Response` — either a
  response or a raised exception;
* exceptions are split into the `AirflowException` family (the only class
  caught by `poke`'s `except AirflowException` clause) and every other
  exception class;
* the `response_check` callable is a record of its declared optional
  parameter names together with a function that may itself return a value
  or raise;
* `execute`'s observable behaviour is an element of `ExecResult`:
  delegation to the blocking `super().execute` path, a single deferral
  registration carrying the trigger spec, a normal return (with the
  returned value), or a propagated exception.
-/

namespace HttpSensorSpec

/-- Opaque runtime values stored in context dictionaries, request
parameters, headers and extra options. -/
abbrev Value := String

/-- A context dictionary / keyword-argument mapping: association list from
names to opaque values. -/
abbrev Ctx := List (String × Value)

/-- The raw HTTP response object handed to `response_check`.  Opaque to the
sensor itself; we keep the fields a check callable typically reads. -/
structure Response where
  status_code : Nat
  reason : String
  body : String
deriving DecidableEq, Repr

/-- A raised Python exception, split by the only distinction `poke` makes:
`except AirflowException as exc` catches exactly the `AirflowException`
family; every other exception class is uncaught.  `msg` is the rendered
message `str(exc)`. -/
inductive Exc where
  | airflow (msg : String)
  | other (clsName : String) (msg : String)
deriving DecidableEq, Repr

/-- The rendered message `str(exc)` of an exception. -/
def Exc.render : Exc → String
  | .airflow m => m
  | .other _ m => m

instance {ε α : Type} [DecidableEq ε] [DecidableEq α] : DecidableEq (Except ε α) :=
  fun a b =>
    match a, b with
    | .error e1, .error e2 =>
      if h : e1 = e2 then .isTrue (by rw [h])
      else .isFalse (fun hc => h (Except.error.inj hc))
    | .ok x, .ok y =>
      if h : x = y then .isTrue (by rw [h])
      else .isFalse (fun hc => h (Except.ok.inj hc))
    | .error _, .ok _ => .isFalse (fun hc => Except.noConfusion hc)
    | .ok _, .error _ => .isFalse (fun hc => Except.noConfusion hc)

/-- A value returned by `poke`: Python `bool | PokeReturnValue`.  The
`PokeReturnValue` wrapper (airflow sdk) carries `is_done` and an optional
xcom value; its truthiness is its `is_done` flag. -/
inductive PokeVal where
  | bool (b : Bool)
  | pokeReturnValue (is_done : Bool) (xcom_value : Option Value)
deriving DecidableEq, Repr

/-- Python truthiness of a `poke` result, as tested by
`if not self.poke(context)` in `execute`. -/
def PokeVal.truthy : PokeVal → Bool
  | .bool b => b
  | .pokeReturnValue d _ => d

/-- The user-supplied `response_check` callable: the optional keyword
parameter names it declares (inspected by `determine_kwargs`) and its body,
which receives the raw response plus the selected keyword arguments and
either returns a poke value or raises. -/
structure ResponseCheck where
  declaredParams : List String
  fn : Response → Ctx → Except Exc PokeVal

/-- The sensor's configuration after `__init__` has run: the fields of
`HttpSensor` the three operations read, plus `poke_interval` and `timeout`
inherited from `BaseSensorOperator` (durations in seconds). -/
structure HttpSensor where
  endpoint : String
  http_conn_id : String
  method : String
  request_params : Ctx
  headers : Ctx
  extra_options : Ctx
  response_error_codes_allowlist : List String
  response_check : Option ResponseCheck
  deferrable : Bool
  poke_interval : Nat
  timeout : Nat

/-- The defaulting of `response_error_codes_allowlist` in
`HttpSensor.__init__` (http.py lines 128-130): `None` becomes `("404",)`,
an explicit list is kept as given. -/
def initResponseErrorCodesAllowlist : Option (List String) → List String
  | none => ["404"]
  | some l => l

/-- Python `m.startswith(p)` for a single candidate p. -/
def strStartsWith (m p : String) : Bool :=
  p.data.isPrefixOf m.data

/-- Python `m.startswith(tuple(L))`: true iff some element of `L` is a
string prefix of `m` (false for the empty tuple). -/
def startsWithAny (m : String) (L : List String) : Bool :=
  L.any (fun p => strStartsWith m p)

/-- Modelled from the spec: `determine_kwargs`
(`airflow.utils.operator_helpers`, not under src/) resolves the contextual
keyword arguments "by inspecting which optional parameters the callable
declares" (spec section 4.1 step 4): it selects from the context exactly the
entries whose names the callable declares. -/
def determine_kwargs (check : ResponseCheck) (context : Ctx) : Ctx :=
  context.filter (fun kv => check.declaredParams.contains kv.1)

/-- The `try` block of `poke` (http.py lines 155-167 and the trailing
`return True` on line 174, which is reached exactly when the block raised
no exception and `response_check` is `None`): run the request; on a
response, apply `response_check` with the kwargs chosen by
`determine_kwargs` when one is configured, otherwise the result is `True`. -/
def tryBlock (s : HttpSensor) (hookRun : Except Exc Response) (context : Ctx) :
    Except Exc PokeVal :=
  match hookRun with
  | .error e => .error e
  | .ok response =>
    match s.response_check with
    | some check => check.fn response (determine_kwargs check context)
    | none => .ok (.bool true)

/-- `HttpSensor.poke` (http.py lines 142-174): run the try block; an
`AirflowException` whose rendered message starts with an element of the
allow-list yields `False`, any other `AirflowException` is re-raised
unchanged, and every non-`AirflowException` exception is uncaught. -/
def poke (s : HttpSensor) (hookRun : Except Exc Response) (context : Ctx) :
    Except Exc PokeVal :=
  match tryBlock s hookRun context with
  | .ok v => .ok v
  | .error e =>
    match e with
    | .airflow msg =>
      if startsWithAny msg s.response_error_codes_allowlist then .ok (.bool false)
      else .error (.airflow msg)
    | .other n m => .error (.other n m)

/-- The argument record of `HttpSensorTrigger(...)` as built by
`HttpSensor.execute` (http.py lines 182-190). -/
structure HttpSensorTrigger where
  endpoint : String
  http_conn_id : String
  data : Ctx
  headers : Ctx
  method : String
  extra_options : Ctx
  poke_interval : Nat
deriving DecidableEq, Repr

/-- Observable behaviour of one call to `HttpSensor.execute`:
`blocking` is delegation to `super().execute` (the external blocking
poll loop); `deferred` is one call to `self.defer` with the deferral
timeout in seconds, the trigger spec and the resume method name;
`done v` is a normal return with value `v` (Python returns `None` when
control falls off the end, i.e. `done none`); `raised e` is an exception
propagating out of `execute`. -/
inductive ExecResult where
  | blocking
  | deferred (timeoutSeconds : Nat) (trigger : HttpSensorTrigger) (method_name : String)
  | done (value : Option PokeVal)
  | raised (e : Exc)
deriving DecidableEq, Repr

/-- `HttpSensor.execute` (http.py lines 176-192): if not deferrable or a
`response_check` is configured, delegate to the blocking path; otherwise
poke once and, if the result is falsy, register a single deferral built
from the sensor's own fields with `timedelta(seconds=self.timeout)` as the
deferral timeout; a truthy poke falls through and returns `None`. -/
def execute (s : HttpSensor) (hookRun : Except Exc Response) (context : Ctx) :
    ExecResult :=
  if !s.deferrable || s.response_check.isSome then .blocking
  else
    match poke s hookRun context with
    | .error e => .raised e
    | .ok v =>
      if !v.truthy then
        .deferred s.timeout
          { endpoint := s.endpoint
            http_conn_id := s.http_conn_id
            data := s.request_params
            headers := s.headers
            method := s.method
            extra_options := s.extra_options
            poke_interval := s.poke_interval }
          "execute_complete"
      else .done none

/-- The completion event handed to `execute_complete` by the external
scheduler: Python `dict[str, Any] | None`. -/
abbrev Event := List (String × Value)

/-- Observable behaviour of one call to `HttpSensor.execute_complete`.
The constructors cover what a resumption handler could in principle do:
complete successfully, raise an exception, register another deferral, or
poll again. -/
inductive CompleteResult where
  | success
  | failed (e : Exc)
  | redeferred
  | polled
deriving DecidableEq, Repr

/-- `HttpSensor.execute_complete` (http.py lines 194-195): logs a success
message and returns `None`, regardless of context and event. -/
def execute_complete (_s : HttpSensor) (_context : Ctx) (_event : Option Event) :
    CompleteResult :=
  .success

/-- Two successive calls to `poke` with the external HTTP capability's
behaviour (and the `response_check` callable) unchanged between them. -/
def pokeTwice (s : HttpSensor) (hookRun : Except Exc Response) (context : Ctx) :
    Except Exc PokeVal × Except Exc PokeVal :=
  (poke s hookRun context, poke s hookRun context)

/-- Modelled from the spec: `HttpHook.run` (not under src/) raises its HTTP
status errors as `TransportError(status_code, message)` within the
`AirflowException` family, with the rendered message beginning with the
status-code string (spec sections 3, 6 and 9: the allow-list codes "are
matched as string prefixes of the fatal error's message"). -/
def transportError (status : Nat) (reason : String) : Exc :=
  .airflow (toString status ++ ":" ++ reason)

/-! Concrete fixtures used by the witness and counterexample theorems. -/

/-- A successful HTTP response. -/
def rOk : Response := { status_code := 200, reason := "OK", body := "ready" }

/-- A `response_check` callable declaring the optional `task_instance`
context parameter; it passes iff the status code is 200 and the
`task_instance` keyword was injected. -/
def checkTaskInstance : ResponseCheck where
  declaredParams := ["task_instance"]
  fn := fun resp kwargs =>
    .ok (.bool ((resp.status_code == 200) && kwargs.any (fun kv => kv.1 == "task_instance")))

/-- A `response_check` callable that raises a non-`AirflowException`
(`ValueError`) whose message happens to start with an allow-listed code. -/
def checkRaises : ResponseCheck where
  declaredParams := []
  fn := fun _ _ => .error (.other "ValueError" "404 boom")

/-- A sensor with the default allow-list and no `response_check`, in
blocking mode. -/
def cfg404 : HttpSensor where
  endpoint := "health"
  http_conn_id := "http_default"
  method := "GET"
  request_params := [("q", "1")]
  headers := [("Accept", "application/json")]
  extra_options := [("timeout", "10")]
  response_error_codes_allowlist := initResponseErrorCodesAllowlist none
  response_check := none
  deferrable := false
  poke_interval := 60
  timeout := 604800

/-- A deferrable sensor with the default allow-list and no
`response_check`. -/
def cfgDef : HttpSensor where
  endpoint := "jobs/42/status"
  http_conn_id := "http_default"
  method := "GET"
  request_params := [("job", "42")]
  headers := [("Accept", "application/json")]
  extra_options := [("verify", "false")]
  response_error_codes_allowlist := initResponseErrorCodesAllowlist none
  response_check := none
  deferrable := true
  poke_interval := 30
  timeout := 3600

/-- A deferrable sensor that nevertheless has a `response_check`
configured. -/
def cfgCheck : HttpSensor where
  endpoint := "health"
  http_conn_id := "http_default"
  method := "GET"
  request_params := []
  headers := []
  extra_options := []
  response_error_codes_allowlist := initResponseErrorCodesAllowlist none
  response_check := some checkTaskInstance
  deferrable := true
  poke_interval := 60
  timeout := 604800

/-- A sensor whose allow-list was explicitly passed as the empty list. -/
def cfgEmptyAllow : HttpSensor where
  endpoint := "health"
  http_conn_id := "http_default"
  method := "GET"
  request_params := []
  headers := []
  extra_options := []
  response_error_codes_allowlist := initResponseErrorCodesAllowlist (some [])
  response_check := none
  deferrable := false
  poke_interval := 60
  timeout := 604800

/-- A sensor whose `response_check` raises a non-`AirflowException` with an
allow-listed message prefix. -/
def cfgCheckRaise : HttpSensor where
  endpoint := "health"
  http_conn_id := "http_default"
  method := "GET"
  request_params := []
  headers := []
  extra_options := []
  response_error_codes_allowlist := initResponseErrorCodesAllowlist none
  response_check := some checkRaises
  deferrable := false
  poke_interval := 60
  timeout := 604800

/-- An error-carrying completion event, as the external scheduler would
deliver if the deferred wait resolved with a failure. -/
def errEvent : Event := [("status", "error"), ("message", "trigger failure")]

/-! Claim theorems. -/

/-- Helper: on an `AirflowException` raised by the HTTP request, `poke`
reduces to the allow-list test (http.py lines 169-172): `False` when the
rendered message starts with an allow-listed code, a re-raise of the same
exception otherwise. -/
theorem poke_airflow_error (s : HttpSensor) (ctx : Ctx) (m : String) :
    poke s (.error (.airflow m)) ctx =
      (if startsWithAny m s.response_error_codes_allowlist then .ok (.bool false)
       else .error (.airflow m)) := rfl

/-- C1: for every configured allow-list `L` (the sensor's
`response_error_codes_allowlist`) and every error raised by the HTTP
request during `poke` with rendered message `m`, `poke` returns
NotSatisfied (`False`) if and only if some element of `L` is a string
prefix of `m`; when no element of `L` is a prefix of `m`, the error
propagates out of `poke` unchanged.  Per spec section 6 the HTTP transport
capability raises `TransportError(status_code, message)`, embedded as the
`AirflowException` family (see `transportError`). -/
theorem poke_allowlist_iff (s : HttpSensor) (ctx : Ctx) (m : String) :
    (poke s (.error (.airflow m)) ctx = .ok (.bool false) ↔
      ∃ p ∈ s.response_error_codes_allowlist, strStartsWith m p = true) ∧
    ((¬ ∃ p ∈ s.response_error_codes_allowlist, strStartsWith m p = true) →
      poke s (.error (.airflow m)) ctx = .error (.airflow m)) := by
  have hexists : startsWithAny m s.response_error_codes_allowlist = true ↔
      ∃ p ∈ s.response_error_codes_allowlist, strStartsWith m p = true := by
    simp [startsWithAny, List.any_eq_true]
  by_cases h : startsWithAny m s.response_error_codes_allowlist = true
  · refine ⟨?_, fun hn => absurd (hexists.mp h) hn⟩
    simp [poke, tryBlock, h, hexists.mp h]
  · refine ⟨?_, fun _ => ?_⟩
    · simp only [poke, tryBlock, Bool.not_eq_true] at h ⊢
      rw [h]
      simp only [Bool.false_eq_true, if_false]
      constructor
      · intro hc
        exact absurd hc (by simp)
      · intro hc
        exact absurd (hexists.mpr hc) (by simp [h])
    · simp [poke, tryBlock, h]

/-- Witness for C1: with the default allow-list `["404"]`, a 403 transport
error does not match and propagates out of `poke` unchanged. -/
theorem poke_allowlist_iff_witness :
    poke cfg404 (.error (.airflow "403:FORBIDDEN")) [] =
      .error (.airflow "403:FORBIDDEN") :=
  (poke_allowlist_iff cfg404 [] "403:FORBIDDEN").2 (by decide)

/-- C2: whenever a `response_check` callable is configured, `execute`
takes the blocking path (delegates to `super().execute`) and never
registers a deferral, even when `deferrable` is true. -/
theorem execute_response_check_blocking (s : HttpSensor)
    (hookRun : Except Exc Response) (ctx : Ctx)
    (h : s.response_check.isSome = true) :
    execute s hookRun ctx = ExecResult.blocking := by
  simp [execute, h]

/-- Witness for C2: the deferrable sensor with a `response_check`
configured takes the blocking path. -/
theorem execute_response_check_blocking_witness :
    execute cfgCheck (.ok rOk) [] = ExecResult.blocking :=
  execute_response_check_blocking cfgCheck (.ok rOk) [] rfl

/-- C3: for a deferrable sensor without `response_check`, when the first
`poke` in `execute` returns NotSatisfied, `execute` registers exactly one
deferral, whose trigger spec carries exactly the sensor's original
endpoint, method, headers, request params, extra options and
`poke_interval`, with the sensor's configured `timeout` as the deferral's
maximum wait and `execute_complete` as the resume method.  (`ExecResult`
records the single `self.defer` call, so exactly one registration occurs.) -/
theorem execute_deferral (s : HttpSensor) (hookRun : Except Exc Response)
    (ctx : Ctx) (hd : s.deferrable = true) (hc : s.response_check = none)
    (hp : poke s hookRun ctx = .ok (.bool false)) :
    execute s hookRun ctx =
      ExecResult.deferred s.timeout
        { endpoint := s.endpoint
          http_conn_id := s.http_conn_id
          data := s.request_params
          headers := s.headers
          method := s.method
          extra_options := s.extra_options
          poke_interval := s.poke_interval }
        "execute_complete" := by
  simp [execute, hd, hc, hp, PokeVal.truthy]

/-- Witness for C3: the deferrable sensor whose first poke hits an
allow-listed 404 error (hence NotSatisfied) registers the deferral with
its own configuration. -/
theorem execute_deferral_witness :
    execute cfgDef (.error (.airflow "404:NOT FOUND")) [] =
      ExecResult.deferred 3600
        { endpoint := "jobs/42/status"
          http_conn_id := "http_default"
          data := [("job", "42")]
          headers := [("Accept", "application/json")]
          extra_options := [("verify", "false")]
          method := "GET"
          poke_interval := 30 }
        "execute_complete" :=
  execute_deferral cfgDef (.error (.airflow "404:NOT FOUND")) [] rfl rfl rfl

/-- C4: an unspecified allow-list (`None`) defaults to exactly `["404"]`;
under that default an HTTP 404 transport error makes `poke` return
`False` while an HTTP 403 transport error propagates; and with an
explicitly empty allow-list an HTTP 404 transport error propagates. -/
theorem allowlist_default_scenarios (s s0 : HttpSensor) (ctx : Ctx)
    (h : s.response_error_codes_allowlist = initResponseErrorCodesAllowlist none)
    (h0 : s0.response_error_codes_allowlist = initResponseErrorCodesAllowlist (some [])) :
    initResponseErrorCodesAllowlist none = ["404"] ∧
    poke s (.error (transportError 404 "NOT FOUND")) ctx = .ok (.bool false) ∧
    poke s (.error (transportError 403 "FORBIDDEN")) ctx =
      .error (transportError 403 "FORBIDDEN") ∧
    poke s0 (.error (transportError 404 "NOT FOUND")) ctx =
      .error (transportError 404 "NOT FOUND") := by
  refine ⟨rfl, ?_, ?_, ?_⟩
  · simp only [transportError]
    rw [poke_airflow_error, h]
    decide
  · simp only [transportError]
    rw [poke_airflow_error, h]
    decide
  · simp only [transportError]
    rw [poke_airflow_error, h0]
    decide

/-- Witness for C4: the concrete default-allow-list sensor swallows a 404
error into `False`. -/
theorem allowlist_default_scenarios_witness :
    poke cfg404 (.error (transportError 404 "NOT FOUND")) [] = .ok (.bool false) :=
  (allowlist_default_scenarios cfg404 cfgEmptyAllow [] rfl rfl).2.1

/-- C5: on an HTTP request that completes without error, `poke`'s outcome
is exactly the configured `response_check` callable's result applied to
the raw response plus the contextual keyword arguments selected by
`determine_kwargs` from the callable's declared parameters; with no
`response_check` configured, the outcome is Satisfied (`True`). -/
theorem poke_success_outcome (s : HttpSensor) (r : Response) (ctx : Ctx) :
    (s.response_check = none → poke s (.ok r) ctx = .ok (.bool true)) ∧
    (∀ check v, s.response_check = some check →
      check.fn r (determine_kwargs check ctx) = .ok v →
      poke s (.ok r) ctx = .ok v) := by
  refine ⟨fun hc => ?_, fun check v hc hv => ?_⟩
  · simp [poke, tryBlock, hc]
  · simp [poke, tryBlock, hc, hv]

/-- Witness for C5: the `checkTaskInstance` callable receives exactly the
declared `task_instance` entry of the context and its result (`True`)
becomes the poke outcome. -/
theorem poke_success_outcome_witness :
    poke cfgCheck (.ok rOk) [("task_instance", "ti1"), ("dag", "d1")] =
      .ok (.bool true) :=
  (poke_success_outcome cfgCheck rOk [("task_instance", "ti1"), ("dag", "d1")]).2
    checkTaskInstance (.bool true) rfl rfl

/-- C6 counterexample: `execute_complete` handed an error-carrying
completion event still completes successfully — the error is not surfaced
as fatal, so the claim that the resumed sensor fails is false on the code
(http.py lines 194-195 only log success). -/
theorem execute_complete_error_event_success :
    execute_complete cfg404 [] (some errEvent) = CompleteResult.success := rfl

/-- C6 amended: `execute_complete` ignores the completion event entirely;
even when the event carries an error, it completes successfully and never
raises, so the error is not surfaced as fatal. -/
theorem execute_complete_ignores_error_event (s : HttpSensor) (ctx : Ctx)
    (ev : Event) (e : Exc) :
    execute_complete s ctx (some ev) ≠ CompleteResult.failed e := by
  simp [execute_complete]

/-- Witness for C6 amended: at the concrete error event, the resumption
does not fail with the event's error. -/
theorem execute_complete_ignores_error_event_witness :
    execute_complete cfg404 [] (some errEvent) ≠
      CompleteResult.failed (Exc.airflow "trigger failure") :=
  execute_complete_ignores_error_event cfg404 [] errEvent (Exc.airflow "trigger failure")

/-- C7: for every sensor, context and event, `execute_complete` is a
terminal success notification: it performs no further polling and never
registers another deferral. -/
theorem execute_complete_terminal (s : HttpSensor) (ctx : Ctx)
    (event : Option Event) :
    execute_complete s ctx event = CompleteResult.success ∧
    execute_complete s ctx event ≠ CompleteResult.redeferred ∧
    execute_complete s ctx event ≠ CompleteResult.polled := by
  refine ⟨rfl, ?_, ?_⟩ <;> simp [execute_complete]

/-- Witness for C7: the concrete resumption neither re-defers nor polls. -/
theorem execute_complete_terminal_witness :
    execute_complete cfgDef [] none = CompleteResult.success :=
  (execute_complete_terminal cfgDef [] none).1

/-- C8: calling `poke` twice with the external HTTP capability's behaviour
(and the `response_check` callable) unchanged between the calls yields the
same outcome both times.  `poke` mutates no sensor state, so in the
embedding both calls are the same pure application. -/
theorem poke_idempotent (s : HttpSensor) (hookRun : Except Exc Response)
    (ctx : Ctx) :
    (pokeTwice s hookRun ctx).1 = (pokeTwice s hookRun ctx).2 := rfl

/-- C9: only the `AirflowException` family is eligible for allow-listing
in `poke`: a non-`AirflowException` raised by the HTTP request, or by the
`response_check` callable, propagates fatally even when its rendered
message starts with an allow-listed code. -/
theorem poke_non_airflow_propagates (s : HttpSensor) (ctx : Ctx)
    (n m : String) :
    poke s (.error (.other n m)) ctx = .error (.other n m) ∧
    (∀ check r, s.response_check = some check →
      check.fn r (determine_kwargs check ctx) = .error (.other n m) →
      poke s (.ok r) ctx = .error (.other n m)) := by
  refine ⟨?_, fun check r hc hv => ?_⟩
  · simp [poke, tryBlock]
  · simp [poke, tryBlock, hc, hv]

/-- Witness for C9: a `ValueError` raised by the `response_check` callable
with message `"404 boom"` propagates out of `poke` even though the
allow-list is `["404"]` and the message starts with `"404"`. -/
theorem poke_non_airflow_propagates_witness :
    strStartsWith "404 boom" "404" = true ∧
    poke cfgCheckRaise (.ok rOk) [] = .error (.other "ValueError" "404 boom") :=
  ⟨by decide,
    (poke_non_airflow_propagates cfgCheckRaise [] "ValueError" "404 boom").2
      checkRaises rOk rfl rfl⟩

/-- C10: in deferrable mode with no `response_check`, every non-raising
run of `execute` returns `None`: the result is never `done (some v)` (no
value from a satisfied poke reaches the caller), and any non-raising
outcome is either a plain `None` return or the single deferral. -/
theorem execute_deferrable_returns_none (s : HttpSensor)
    (hookRun : Except Exc Response) (ctx : Ctx)
    (hd : s.deferrable = true) (hc : s.response_check = none) :
    (∀ v, execute s hookRun ctx ≠ ExecResult.done (some v)) ∧
    ((∀ e, execute s hookRun ctx ≠ ExecResult.raised e) →
      execute s hookRun ctx = ExecResult.done none ∨
      ∃ t tr, execute s hookRun ctx = ExecResult.deferred t tr "execute_complete") := by
  have hblock : (!s.deferrable || s.response_check.isSome) = false := by
    simp [hd, hc]
  rcases hpoke : poke s hookRun ctx with e2 | w
  · have hexec : execute s hookRun ctx = ExecResult.raised e2 := by
      simp [execute, hblock, hpoke]
    exact ⟨fun v => by simp [hexec], fun hne => absurd hexec (hne e2)⟩
  · by_cases ht : w.truthy
    · have hexec : execute s hookRun ctx = ExecResult.done none := by
        simp [execute, hblock, hpoke, ht]
      exact ⟨fun v => by simp [hexec], fun _ => Or.inl hexec⟩
    · have hexec : execute s hookRun ctx =
          ExecResult.deferred s.timeout
            { endpoint := s.endpoint
              http_conn_id := s.http_conn_id
              data := s.request_params
              headers := s.headers
              method := s.method
              extra_options := s.extra_options
              poke_interval := s.poke_interval }
            "execute_complete" := by
        simp [execute, hblock, hpoke, ht]
      exact ⟨fun v => by simp [hexec], fun _ => Or.inr ⟨_, _, hexec⟩⟩

/-- Witness for C10: a satisfied first poke (successful response) makes
`execute` return `None`, not the poke value `True`. -/
theorem execute_deferrable_returns_none_witness :
    execute cfgDef (.ok rOk) [] = ExecResult.done none ∧
    execute cfgDef (.ok rOk) [] ≠ ExecResult.done (some (.bool true)) :=
  ⟨rfl, (execute_deferrable_returns_none cfgDef (.ok rOk) [] rfl rfl).1 (.bool true)⟩

end HttpSensorSpec
